import Mathlib

/-!
Verification development for the Bilibili audio downloader (`download.py`).

The file shallowly embeds the pure fragments of the script:

* `generate_wbi_sign` — the WBI request signer (sort the parameter mapping,
  serialize as `k=v` pairs joined by `&`, append `img_key ++ sub_key`,
  MD5 the UTF-8 bytes, render as lowercase hex).  MD5 is embedded in full
  (RFC 1321) over `Nat` with explicit `% 2^32`.
* `extract_bvid` — the regex search for `BV[\w]+` (earliest start, greedy),
  with `\w` given by the exact Unicode word-character ranges of CPython's
  `re` on `str` patterns (`wordRanges`).
* `get_wbi_keys` / `get_audio_url` — the response-shape handling around the
  navigation endpoint, with Python `dict` subscripts that raise `KeyError`
  modelled as `Except`, and the filename-stem extraction
  `url.split("/")[-1].split(".")[0]` modelled via `splitCh` which follows
  Python `str.split` on a single-character separator (keeps empty pieces,
  never returns an empty list).
* Python `sorted` on `dict.items()` compares `(key, value)` tuples
  lexicographically by code point; this is embedded as the stable
  `List.insertionSort` under `pairLeR` built from the code-point order
  `lexLe`/`lexLt` (stable sorts under the same total preorder agree, so the
  choice of stable algorithm is immaterial).
-/

/-- Lowercase hexadecimal digits, as used by Python's `hexdigest`. -/
def hexDigits : List Char := "0123456789abcdef".data

def hexDigit (n : Nat) : Char := hexDigits.getD n '0'

/-- Two lowercase hex characters for one byte. -/
def byteHex (b : Nat) : List Char := [hexDigit (b / 16), hexDigit (b % 16)]

/-- Little-endian byte decomposition of a 32-bit word. -/
def wordLEBytes (w : Nat) : List Nat := [w % 256, w / 256 % 256, w / 65536 % 256, w / 16777216 % 256]

def M32 : Nat := 4294967296

def add32 (a b : Nat) : Nat := (a + b) % M32

def not32 (x : Nat) : Nat := Nat.xor x 4294967295

def rotl32 (x n : Nat) : Nat := (x * 2 ^ n + x / 2 ^ (32 - n)) % M32

def mdF (b c d : Nat) : Nat := Nat.lor (Nat.land b c) (Nat.land (not32 b) d)

def mdG (b c d : Nat) : Nat := Nat.lor (Nat.land d b) (Nat.land (not32 d) c)

def mdH (b c d : Nat) : Nat := Nat.xor b (Nat.xor c d)

def mdI (b c d : Nat) : Nat := Nat.xor c (Nat.lor b (not32 d))

/-- RFC 1321 sine-derived round constants. -/
def kTable : List Nat :=
  [3614090360, 3905402710, 606105819, 3250441966, 4118548399, 1200080426, 2821735955, 4249261313,
   1770035416, 2336552879, 4294925233, 2304563134, 1804603682, 4254626195, 2792965006, 1236535329,
   4129170786, 3225465664, 643717713, 3921069994, 3593408605, 38016083, 3634488961, 3889429448,
   568446438, 3275163606, 4107603335, 1163531501, 2850285829, 4243563512, 1735328473, 2368359562,
   4294588738, 2272392833, 1839030562, 4259657740, 2763975236, 1272893353, 4139469664, 3200236656,
   681279174, 3936430074, 3572445317, 76029189, 3654602809, 3873151461, 530742520, 3299628645,
   4096336452, 1126891415, 2878612391, 4237533241, 1700485571, 2399980690, 4293915773, 2240044497,
   1873313359, 4264355552, 2734768916, 1309151649, 4149444226, 3174756917, 718787259, 3951481745]

/-- RFC 1321 per-round left-rotation amounts. -/
def sTable : List Nat :=
  [7, 12, 17, 22, 7, 12, 17, 22, 7, 12, 17, 22, 7, 12, 17, 22,
   5, 9, 14, 20, 5, 9, 14, 20, 5, 9, 14, 20, 5, 9, 14, 20,
   4, 11, 16, 23, 4, 11, 16, 23, 4, 11, 16, 23, 4, 11, 16, 23,
   6, 10, 15, 21, 6, 10, 15, 21, 6, 10, 15, 21, 6, 10, 15, 21]

/-- Little-endian bytes of a value, `n` bytes wide. -/
def leBytes : Nat → Nat → List Nat
  | 0, _ => []
  | n + 1, v => v % 256 :: leBytes n (v / 256)

/-- MD5 padding: `0x80`, zeros to 56 mod 64, then the 64-bit little-endian bit length. -/
def padMessage (msg : List Nat) : List Nat :=
  msg ++ [128] ++ List.replicate ((119 - msg.length % 64) % 64) 0
      ++ leBytes 8 (msg.length * 8 % 2 ^ 64)

def chunks64 (l : List Nat) : List (List Nat) :=
  if h : l = [] then [] else l.take 64 :: chunks64 (l.drop 64)
termination_by l.length
decreasing_by
  simp only [List.length_drop]
  have := List.length_pos.mpr h
  omega

/-- Word `j` of a 64-byte chunk, read little-endian. -/
def wordAt (chunk : List Nat) (j : Nat) : Nat :=
  chunk.getD (4 * j) 0 + 256 * chunk.getD (4 * j + 1) 0
    + 65536 * chunk.getD (4 * j + 2) 0 + 16777216 * chunk.getD (4 * j + 3) 0

def md5Round (chunk : List Nat) (st : Nat × Nat × Nat × Nat) (i : Nat) : Nat × Nat × Nat × Nat :=
  let a := st.1
  let b := st.2.1
  let c := st.2.2.1
  let d := st.2.2.2
  let f := if i < 16 then mdF b c d else if i < 32 then mdG b c d
           else if i < 48 then mdH b c d else mdI b c d
  let g := if i < 16 then i else if i < 32 then (5 * i + 1) % 16
           else if i < 48 then (3 * i + 5) % 16 else 7 * i % 16
  let t := add32 (add32 (add32 a f) (kTable.getD i 0)) (wordAt chunk g)
  (d, add32 b (rotl32 t (sTable.getD i 0)), b, c)

def md5Chunk (st : Nat × Nat × Nat × Nat) (chunk : List Nat) : Nat × Nat × Nat × Nat :=
  let r := (List.range 64).foldl (md5Round chunk) st
  (add32 st.1 r.1, add32 st.2.1 r.2.1, add32 st.2.2.1 r.2.2.1, add32 st.2.2.2 r.2.2.2)

def md5Init : Nat × Nat × Nat × Nat := (1732584193, 4023233417, 2562383102, 271733878)

/-- The four 32-bit MD5 state words of a byte message. -/
def md5Words (msg : List Nat) : Nat × Nat × Nat × Nat :=
  (chunks64 (padMessage msg)).foldl md5Chunk md5Init

/-- `hashlib.md5(...).hexdigest()`: 32 lowercase hex characters. -/
def md5hex (msg : List Nat) : String :=
  let w := md5Words msg
  String.mk ((wordLEBytes w.1 ++ wordLEBytes w.2.1 ++ wordLEBytes w.2.2.1
      ++ wordLEBytes w.2.2.2).flatMap byteHex)

/-- UTF-8 bytes of one unicode scalar value (`str.encode()` per character). -/
def utf8Char (c : Char) : List Nat :=
  let n := c.toNat
  if n < 128 then [n]
  else if n < 2048 then [192 + n / 64, 128 + n % 64]
  else if n < 65536 then [224 + n / 4096, 128 + n / 64 % 64, 128 + n % 64]
  else [240 + n / 262144, 128 + n / 4096 % 64, 128 + n / 64 % 64, 128 + n % 64]

/-- `str.encode()`: UTF-8 bytes of a string. -/
def utf8Encode (s : String) : List Nat := s.data.flatMap utf8Char

/-- Strict code-point lexicographic order on character lists
(Python string `<`). -/
def lexLt : List Char → List Char → Bool
  | _, [] => false
  | [], _ :: _ => true
  | a :: as, b :: bs =>
    if a.toNat < b.toNat then true
    else if b.toNat < a.toNat then false
    else lexLt as bs

/-- Reflexive code-point lexicographic order (Python string `<=`). -/
def lexLe : List Char → List Char → Bool
  | _ :: _, [] => false
  | [], _ => true
  | x :: xs, y :: ys =>
    if x.toNat < y.toNat then true
    else if y.toNat < x.toNat then false
    else lexLe xs ys

/-- Python tuple comparison `(k1, v1) <= (k2, v2)` on string pairs:
first components decide unless equal. -/
def pairLeB (p q : String × String) : Bool :=
  if lexLt p.1.data q.1.data then true
  else if lexLt q.1.data p.1.data then false
  else lexLe p.2.data q.2.data

def pairLeR (p q : String × String) : Prop := pairLeB p q = true

instance : DecidableRel pairLeR := fun p q => inferInstanceAs (Decidable (pairLeB p q = true))

/-- `sorted(params.items())`: stable sort of the item list under tuple
comparison (any stable sort under the same total preorder agrees with
Python's). -/
def sortParams (l : List (String × String)) : List (String × String) :=
  List.insertionSort pairLeR l

/-- Python `"&".join`. -/
def joinAmp : List String → String
  | [] => ""
  | [x] => x
  | x :: y :: rest => x ++ "&" ++ joinAmp (y :: rest)

/-- `"&".join([f"{k}={v}" for k, v in params.items()])`. -/
def serialize (l : List (String × String)) : String :=
  joinAmp (l.map fun p => p.1 ++ "=" ++ p.2)

/-- `mix_key = img_key + sub_key` (line 30). -/
def mix_key (img_key sub_key : String) : String := img_key ++ sub_key

/-- `sign_str = params_str + mix_key` (lines 31–33): serialization of the
sorted parameter items followed directly by the mix key. -/
def sign_str (params : List (String × String)) (img_key sub_key : String) : String :=
  serialize (sortParams params) ++ mix_key img_key sub_key

/-- `generate_wbi_sign` (lines 29–34).  Parameter values appear already
rendered to strings, as the f-string `f"{k}={v}"` renders them;
`cid`/`wts` values are passed through `toString`. -/
def generate_wbi_sign (params : List (String × String)) (img_key sub_key : String) : String :=
  md5hex (utf8Encode (sign_str params img_key sub_key))

/-- The base parameter dict of `get_audio_url` (lines 42–50), in source
insertion order, with `int` values rendered by `str`.  The ambient clock
read `wts = int(time.time())` is modelled as the explicit argument `wts`. -/
def baseParams (bvid : String) (cid wts : Int) : List (String × String) :=
  [("bvid", bvid), ("cid", toString cid), ("qn", "80"), ("fnver", "0"),
   ("fnval", "4048"), ("fourk", "1"), ("wts", toString wts)]

/-- `params["w_rid"] = generate_wbi_sign(params, ...)` (line 52): the dict
after the assignment, i.e. the base items with `w_rid` appended last. -/
def signedParams (bvid : String) (cid wts : Int) (img_key sub_key : String) :
    List (String × String) :=
  baseParams bvid cid wts
    ++ [("w_rid", generate_wbi_sign (baseParams bvid cid wts) img_key sub_key)]

/-- Python `str.split` on a single-character separator: keeps empty pieces
and always returns at least one piece. -/
def splitCh (c : Char) : List Char → List (List Char)
  | [] => [[]]
  | x :: xs =>
    let r := splitCh c xs
    if x = c then [] :: r else (x :: r.headD []) :: r.tail

/-- `url.split("/")[-1].split(".")[0]` (lines 24–25): the filename stem of
a URL.  Python's `[-1]`/`[0]` indexing is total here because `split`
always returns a non-empty list (`splitCh_ne_nil`). -/
def stem (s : String) : String :=
  String.mk ((splitCh '.' ((splitCh '/' s.data).getLastD [])).headD [])

/-- JSON values, as `response.json()` materialises them. -/
inductive Json where
  | null : Json
  | str : String → Json
  | num : Int → Json
  | obj : List (String × Json) → Json

/-- Python exceptions raised by the response handling. -/
inductive PyErr where
  | keyError : String → PyErr
  | typeError : String → PyErr
deriving DecidableEq

def jfind : List (String × Json) → String → Option Json
  | [], _ => none
  | (k, v) :: rest, key => if k = key then some v else jfind rest key

/-- Python `d[key]` on a JSON value: `KeyError` when the key is absent,
`TypeError` when the value is not an object. -/
def Json.getItem : Json → String → Except PyErr Json
  | Json.obj fields, key =>
    match jfind fields key with
    | some v => Except.ok v
    | none => Except.error (PyErr.keyError key)
  | _, key => Except.error (PyErr.typeError key)

/-- Using a JSON value as a string (for `.split`): error when it is not one. -/
def Json.asStr : Json → Except PyErr String
  | Json.str s => Except.ok s
  | _ => Except.error (PyErr.typeError "str")

/-- `get_wbi_keys` (lines 19–27) over a stubbed navigation response
`(status, body)`.  Uncaught Python exceptions (e.g. `KeyError` on a
missing `data`/`wbi_img` field) are the `Except.error` outcomes; the
non-200 branch returns `(None, None)`. -/
def get_wbi_keys (status : Nat) (body : Json) : Except PyErr (Option String × Option String) :=
  if status = 200 then do
    let data ← body.getItem "data"
    let wbiImg ← data.getItem "wbi_img"
    let imgUrl ← wbiImg.getItem "img_url"
    let imgUrlS ← imgUrl.asStr
    let subUrl ← wbiImg.getItem "sub_url"
    let subUrlS ← subUrl.asStr
    pure (some (stem imgUrlS), some (stem subUrlS))
  else pure (none, none)

/-- The pure first stage of `get_audio_url` (lines 36–52): fetch keys from the
stubbed navigation response, guard `if not img_key or not sub_key`
(`None` and the empty string are falsy), then assemble the signed
parameter set that would be sent to the playurl endpoint. -/
def get_audio_url_params (status : Nat) (body : Json) (bvid : String) (cid wts : Int) :
    Except PyErr (Option (List (String × String))) := do
  let keys ← get_wbi_keys status body
  match keys with
  | (some img_key, some sub_key) =>
    if img_key = "" ∨ sub_key = "" then pure none
    else pure (some (signedParams bvid cid wts img_key sub_key))
  | _ => pure none

/-- The inclusive code-point ranges matched by `\w` in a CPython `str`
pattern (equivalently, the characters `str.isalnum` accepts plus the
underscore), enumerated from the interpreter's Unicode 14.0.0 character
database by testing every scalar value against `re.fullmatch(r'\w', ...)`. -/
def wordRanges : List (Nat × Nat) :=
  [(48, 57),(65, 90),(95, 95),(97, 122),(170, 170),(178, 179),(181, 181),(185, 186),(188, 190),
   (192, 214),(216, 246),(248, 705),(710, 721),(736, 740),(748, 748),(750, 750),(880, 884),
   (886, 887),(890, 893),(895, 895),(902, 902),(904, 906),(908, 908),(910, 929),(931, 1013),
   (1015, 1153),(1162, 1327),(1329, 1366),(1369, 1369),(1376, 1416),(1488, 1514),(1519, 1522),
   (1568, 1610),(1632, 1641),(1646, 1647),(1649, 1747),(1749, 1749),(1765, 1766),(1774, 1788),
   (1791, 1791),(1808, 1808),(1810, 1839),(1869, 1957),(1969, 1969),(1984, 2026),(2036, 2037),
   (2042, 2042),(2048, 2069),(2074, 2074),(2084, 2084),(2088, 2088),(2112, 2136),(2144, 2154),
   (2160, 2183),(2185, 2190),(2208, 2249),(2308, 2361),(2365, 2365),(2384, 2384),(2392, 2401),
   (2406, 2415),(2417, 2432),(2437, 2444),(2447, 2448),(2451, 2472),(2474, 2480),(2482, 2482),
   (2486, 2489),(2493, 2493),(2510, 2510),(2524, 2525),(2527, 2529),(2534, 2545),(2548, 2553),
   (2556, 2556),(2565, 2570),(2575, 2576),(2579, 2600),(2602, 2608),(2610, 2611),(2613, 2614),
   (2616, 2617),(2649, 2652),(2654, 2654),(2662, 2671),(2674, 2676),(2693, 2701),(2703, 2705),
   (2707, 2728),(2730, 2736),(2738, 2739),(2741, 2745),(2749, 2749),(2768, 2768),(2784, 2785),
   (2790, 2799),(2809, 2809),(2821, 2828),(2831, 2832),(2835, 2856),(2858, 2864),(2866, 2867),
   (2869, 2873),(2877, 2877),(2908, 2909),(2911, 2913),(2918, 2927),(2929, 2935),(2947, 2947),
   (2949, 2954),(2958, 2960),(2962, 2965),(2969, 2970),(2972, 2972),(2974, 2975),(2979, 2980),
   (2984, 2986),(2990, 3001),(3024, 3024),(3046, 3058),(3077, 3084),(3086, 3088),(3090, 3112),
   (3114, 3129),(3133, 3133),(3160, 3162),(3165, 3165),(3168, 3169),(3174, 3183),(3192, 3198),
   (3200, 3200),(3205, 3212),(3214, 3216),(3218, 3240),(3242, 3251),(3253, 3257),(3261, 3261),
   (3293, 3294),(3296, 3297),(3302, 3311),(3313, 3314),(3332, 3340),(3342, 3344),(3346, 3386),
   (3389, 3389),(3406, 3406),(3412, 3414),(3416, 3425),(3430, 3448),(3450, 3455),(3461, 3478),
   (3482, 3505),(3507, 3515),(3517, 3517),(3520, 3526),(3558, 3567),(3585, 3632),(3634, 3635),
   (3648, 3654),(3664, 3673),(3713, 3714),(3716, 3716),(3718, 3722),(3724, 3747),(3749, 3749),
   (3751, 3760),(3762, 3763),(3773, 3773),(3776, 3780),(3782, 3782),(3792, 3801),(3804, 3807),
   (3840, 3840),(3872, 3891),(3904, 3911),(3913, 3948),(3976, 3980),(4096, 4138),(4159, 4169),
   (4176, 4181),(4186, 4189),(4193, 4193),(4197, 4198),(4206, 4208),(4213, 4225),(4238, 4238),
   (4240, 4249),(4256, 4293),(4295, 4295),(4301, 4301),(4304, 4346),(4348, 4680),(4682, 4685),
   (4688, 4694),(4696, 4696),(4698, 4701),(4704, 4744),(4746, 4749),(4752, 4784),(4786, 4789),
   (4792, 4798),(4800, 4800),(4802, 4805),(4808, 4822),(4824, 4880),(4882, 4885),(4888, 4954),
   (4969, 4988),(4992, 5007),(5024, 5109),(5112, 5117),(5121, 5740),(5743, 5759),(5761, 5786),
   (5792, 5866),(5870, 5880),(5888, 5905),(5919, 5937),(5952, 5969),(5984, 5996),(5998, 6000),
   (6016, 6067),(6103, 6103),(6108, 6108),(6112, 6121),(6128, 6137),(6160, 6169),(6176, 6264),
   (6272, 6276),(6279, 6312),(6314, 6314),(6320, 6389),(6400, 6430),(6470, 6509),(6512, 6516),
   (6528, 6571),(6576, 6601),(6608, 6618),(6656, 6678),(6688, 6740),(6784, 6793),(6800, 6809),
   (6823, 6823),(6917, 6963),(6981, 6988),(6992, 7001),(7043, 7072),(7086, 7141),(7168, 7203),
   (7232, 7241),(7245, 7293),(7296, 7304),(7312, 7354),(7357, 7359),(7401, 7404),(7406, 7411),
   (7413, 7414),(7418, 7418),(7424, 7615),(7680, 7957),(7960, 7965),(7968, 8005),(8008, 8013),
   (8016, 8023),(8025, 8025),(8027, 8027),(8029, 8029),(8031, 8061),(8064, 8116),(8118, 8124),
   (8126, 8126),(8130, 8132),(8134, 8140),(8144, 8147),(8150, 8155),(8160, 8172),(8178, 8180),
   (8182, 8188),(8304, 8305),(8308, 8313),(8319, 8329),(8336, 8348),(8450, 8450),(8455, 8455),
   (8458, 8467),(8469, 8469),(8473, 8477),(8484, 8484),(8486, 8486),(8488, 8488),(8490, 8493),
   (8495, 8505),(8508, 8511),(8517, 8521),(8526, 8526),(8528, 8585),(9312, 9371),(9450, 9471),
   (10102, 10131),(11264, 11492),(11499, 11502),(11506, 11507),(11517, 11517),(11520, 11557),
   (11559, 11559),(11565, 11565),(11568, 11623),(11631, 11631),(11648, 11670),(11680, 11686),
   (11688, 11694),(11696, 11702),(11704, 11710),(11712, 11718),(11720, 11726),(11728, 11734),
   (11736, 11742),(11823, 11823),(12293, 12295),(12321, 12329),(12337, 12341),(12344, 12348),
   (12353, 12438),(12445, 12447),(12449, 12538),(12540, 12543),(12549, 12591),(12593, 12686),
   (12690, 12693),(12704, 12735),(12784, 12799),(12832, 12841),(12872, 12879),(12881, 12895),
   (12928, 12937),(12977, 12991),(13312, 19903),(19968, 42124),(42192, 42237),(42240, 42508),
   (42512, 42539),(42560, 42606),(42623, 42653),(42656, 42735),(42775, 42783),(42786, 42888),
   (42891, 42954),(42960, 42961),(42963, 42963),(42965, 42969),(42994, 43009),(43011, 43013),
   (43015, 43018),(43020, 43042),(43056, 43061),(43072, 43123),(43138, 43187),(43216, 43225),
   (43250, 43255),(43259, 43259),(43261, 43262),(43264, 43301),(43312, 43334),(43360, 43388),
   (43396, 43442),(43471, 43481),(43488, 43492),(43494, 43518),(43520, 43560),(43584, 43586),
   (43588, 43595),(43600, 43609),(43616, 43638),(43642, 43642),(43646, 43695),(43697, 43697),
   (43701, 43702),(43705, 43709),(43712, 43712),(43714, 43714),(43739, 43741),(43744, 43754),
   (43762, 43764),(43777, 43782),(43785, 43790),(43793, 43798),(43808, 43814),(43816, 43822),
   (43824, 43866),(43868, 43881),(43888, 44002),(44016, 44025),(44032, 55203),(55216, 55238),
   (55243, 55291),(63744, 64109),(64112, 64217),(64256, 64262),(64275, 64279),(64285, 64285),
   (64287, 64296),(64298, 64310),(64312, 64316),(64318, 64318),(64320, 64321),(64323, 64324),
   (64326, 64433),(64467, 64829),(64848, 64911),(64914, 64967),(65008, 65019),(65136, 65140),
   (65142, 65276),(65296, 65305),(65313, 65338),(65345, 65370),(65382, 65470),(65474, 65479),
   (65482, 65487),(65490, 65495),(65498, 65500),(65536, 65547),(65549, 65574),(65576, 65594),
   (65596, 65597),(65599, 65613),(65616, 65629),(65664, 65786),(65799, 65843),(65856, 65912),
   (65930, 65931),(66176, 66204),(66208, 66256),(66273, 66299),(66304, 66339),(66349, 66378),
   (66384, 66421),(66432, 66461),(66464, 66499),(66504, 66511),(66513, 66517),(66560, 66717),
   (66720, 66729),(66736, 66771),(66776, 66811),(66816, 66855),(66864, 66915),(66928, 66938),
   (66940, 66954),(66956, 66962),(66964, 66965),(66967, 66977),(66979, 66993),(66995, 67001),
   (67003, 67004),(67072, 67382),(67392, 67413),(67424, 67431),(67456, 67461),(67463, 67504),
   (67506, 67514),(67584, 67589),(67592, 67592),(67594, 67637),(67639, 67640),(67644, 67644),
   (67647, 67669),(67672, 67702),(67705, 67742),(67751, 67759),(67808, 67826),(67828, 67829),
   (67835, 67867),(67872, 67897),(67968, 68023),(68028, 68047),(68050, 68096),(68112, 68115),
   (68117, 68119),(68121, 68149),(68160, 68168),(68192, 68222),(68224, 68255),(68288, 68295),
   (68297, 68324),(68331, 68335),(68352, 68405),(68416, 68437),(68440, 68466),(68472, 68497),
   (68521, 68527),(68608, 68680),(68736, 68786),(68800, 68850),(68858, 68899),(68912, 68921),
   (69216, 69246),(69248, 69289),(69296, 69297),(69376, 69415),(69424, 69445),(69457, 69460),
   (69488, 69505),(69552, 69579),(69600, 69622),(69635, 69687),(69714, 69743),(69745, 69746),
   (69749, 69749),(69763, 69807),(69840, 69864),(69872, 69881),(69891, 69926),(69942, 69951),
   (69956, 69956),(69959, 69959),(69968, 70002),(70006, 70006),(70019, 70066),(70081, 70084),
   (70096, 70106),(70108, 70108),(70113, 70132),(70144, 70161),(70163, 70187),(70272, 70278),
   (70280, 70280),(70282, 70285),(70287, 70301),(70303, 70312),(70320, 70366),(70384, 70393),
   (70405, 70412),(70415, 70416),(70419, 70440),(70442, 70448),(70450, 70451),(70453, 70457),
   (70461, 70461),(70480, 70480),(70493, 70497),(70656, 70708),(70727, 70730),(70736, 70745),
   (70751, 70753),(70784, 70831),(70852, 70853),(70855, 70855),(70864, 70873),(71040, 71086),
   (71128, 71131),(71168, 71215),(71236, 71236),(71248, 71257),(71296, 71338),(71352, 71352),
   (71360, 71369),(71424, 71450),(71472, 71483),(71488, 71494),(71680, 71723),(71840, 71922),
   (71935, 71942),(71945, 71945),(71948, 71955),(71957, 71958),(71960, 71983),(71999, 71999),
   (72001, 72001),(72016, 72025),(72096, 72103),(72106, 72144),(72161, 72161),(72163, 72163),
   (72192, 72192),(72203, 72242),(72250, 72250),(72272, 72272),(72284, 72329),(72349, 72349),
   (72368, 72440),(72704, 72712),(72714, 72750),(72768, 72768),(72784, 72812),(72818, 72847),
   (72960, 72966),(72968, 72969),(72971, 73008),(73030, 73030),(73040, 73049),(73056, 73061),
   (73063, 73064),(73066, 73097),(73112, 73112),(73120, 73129),(73440, 73458),(73648, 73648),
   (73664, 73684),(73728, 74649),(74752, 74862),(74880, 75075),(77712, 77808),(77824, 78894),
   (82944, 83526),(92160, 92728),(92736, 92766),(92768, 92777),(92784, 92862),(92864, 92873),
   (92880, 92909),(92928, 92975),(92992, 92995),(93008, 93017),(93019, 93025),(93027, 93047),
   (93053, 93071),(93760, 93846),(93952, 94026),(94032, 94032),(94099, 94111),(94176, 94177),
   (94179, 94179),(94208, 100343),(100352, 101589),(101632, 101640),(110576, 110579),
   (110581, 110587),(110589, 110590),(110592, 110882),(110928, 110930),(110948, 110951),
   (110960, 111355),(113664, 113770),(113776, 113788),(113792, 113800),(113808, 113817),
   (119520, 119539),(119648, 119672),(119808, 119892),(119894, 119964),(119966, 119967),
   (119970, 119970),(119973, 119974),(119977, 119980),(119982, 119993),(119995, 119995),
   (119997, 120003),(120005, 120069),(120071, 120074),(120077, 120084),(120086, 120092),
   (120094, 120121),(120123, 120126),(120128, 120132),(120134, 120134),(120138, 120144),
   (120146, 120485),(120488, 120512),(120514, 120538),(120540, 120570),(120572, 120596),
   (120598, 120628),(120630, 120654),(120656, 120686),(120688, 120712),(120714, 120744),
   (120746, 120770),(120772, 120779),(120782, 120831),(122624, 122654),(123136, 123180),
   (123191, 123197),(123200, 123209),(123214, 123214),(123536, 123565),(123584, 123627),
   (123632, 123641),(124896, 124902),(124904, 124907),(124909, 124910),(124912, 124926),
   (124928, 125124),(125127, 125135),(125184, 125251),(125259, 125259),(125264, 125273),
   (126065, 126123),(126125, 126127),(126129, 126132),(126209, 126253),(126255, 126269),
   (126464, 126467),(126469, 126495),(126497, 126498),(126500, 126500),(126503, 126503),
   (126505, 126514),(126516, 126519),(126521, 126521),(126523, 126523),(126530, 126530),
   (126535, 126535),(126537, 126537),(126539, 126539),(126541, 126543),(126545, 126546),
   (126548, 126548),(126551, 126551),(126553, 126553),(126555, 126555),(126557, 126557),
   (126559, 126559),(126561, 126562),(126564, 126564),(126567, 126570),(126572, 126578),
   (126580, 126583),(126585, 126588),(126590, 126590),(126592, 126601),(126603, 126619),
   (126625, 126627),(126629, 126633),(126635, 126651),(127232, 127244),(130032, 130041),
   (131072, 173791),(173824, 177976),(177984, 178205),(178208, 183969),(183984, 191456),
   (194560, 195101),(196608, 201546)]

/-- Python `\w` on a `str`: Unicode word characters — letters, digits
(including other numeric characters) and the underscore. -/
def isWordChar (c : Char) : Bool :=
  wordRanges.any fun r => r.1 ≤ c.toNat && c.toNat ≤ r.2

/-- Match of the regex `BV[\w]+` anchored at the start of the list:
literal `B`, literal `V`, then a greedy non-empty run of word chars. -/
def matchAt : List Char → Option (List Char)
  | x :: y :: rest =>
    if x = 'B' ∧ y = 'V' then
      let w := rest.takeWhile isWordChar
      if w = [] then none else some (x :: y :: w)
    else none
  | _ => none

/-- `re.search(r'(BV[\w]+)', url)`: try the anchored match at each start
position from the left; first success wins. -/
def searchBV : List Char → Option (List Char)
  | [] => none
  | x :: xs =>
    match matchAt (x :: xs) with
    | some m => some m
    | none => searchBV xs

/-- `extract_bvid` (lines 8–10): group 1 is the whole match. -/
def extract_bvid (url : String) : Option String :=
  (searchBV url.data).map String.mk

/-- `generate_wbi_sign` with the Python object store made explicit: the
heap is a list of dicts addressed by index, `addr` is the caller's
`params` object.  `params.items()` only reads the dict;
`dict(sorted(...))` allocates a fresh object which the local name is
rebound to; the original object is never written. -/
def generate_wbi_sign_heap (heap : List (List (String × String))) (addr : Nat)
    (img_key sub_key : String) : List (List (String × String)) × String :=
  let items := heap.getD addr []
  let sortedCopy := sortParams items
  (heap ++ [sortedCopy], md5hex (utf8Encode (serialize sortedCopy ++ mix_key img_key sub_key)))

/-- Injection of naturals into candidate `img_key` strings. -/
def imgOfNat (n : Nat) : String := String.mk (List.replicate n 'a')

/-- The 128-bit MD5 state packed into one natural number. -/
def digestNat (w : Nat × Nat × Nat × Nat) : Nat :=
  w.1 + M32 * w.2.1 + M32 ^ 2 * w.2.2.1 + M32 ^ 3 * w.2.2.2

/-- The byte message hashed when signing the concrete base parameters with
`imgOfNat n` as `img_key` and an empty `sub_key`. -/
def c8Msg (n : Nat) : List Nat :=
  utf8Encode (sign_str (baseParams "BV1xx411c7XX" 12345 1700000000) (imgOfNat n) "")

/-! ## Helper lemmas: strings and the code-point order -/

theorem str_ext {s t : String} (h : s.data = t.data) : s = t :=
  congrArg String.mk h

theorem char_toNat_inj {a b : Char} (h : a.toNat = b.toNat) : a = b :=
  Char.ext (UInt32.ext h)

theorem str_append_assoc (a b c : String) : a ++ b ++ c = a ++ (b ++ c) := by
  apply str_ext
  simp [String.data_append, List.append_assoc]

theorem lexLt_nil (a : List Char) : lexLt a [] = false := by
  cases a <;> rfl

theorem lexLt_irrefl : ∀ a : List Char, lexLt a a = false
  | [] => rfl
  | x :: xs => by simp [lexLt, lexLt_irrefl xs]

theorem lexLt_asymm : ∀ a b : List Char, lexLt a b = true → lexLt b a = false := by
  intro a
  induction a with
  | nil =>
    intro b h
    cases b with
    | nil => simp [lexLt] at h
    | cons y ys => simp [lexLt]
  | cons x xs ih =>
    intro b h
    cases b with
    | nil => simp [lexLt] at h
    | cons y ys =>
      by_cases h1 : x.toNat < y.toNat
      · have h2 : ¬ y.toNat < x.toNat := by omega
        simp [lexLt, h1, h2]
      · by_cases h2 : y.toNat < x.toNat
        · simp [lexLt, h1, h2] at h
        · simp only [lexLt, if_neg h1, if_neg h2] at h ⊢
          exact ih ys h

theorem lexLt_connected : ∀ a b : List Char, lexLt a b = false → lexLt b a = false → a = b := by
  intro a
  induction a with
  | nil =>
    intro b h1 h2
    cases b with
    | nil => rfl
    | cons y ys => simp [lexLt] at h1
  | cons x xs ih =>
    intro b h1 h2
    cases b with
    | nil => simp [lexLt] at h2
    | cons y ys =>
      by_cases hxy : x.toNat < y.toNat
      · simp [lexLt, hxy] at h1
      · by_cases hyx : y.toNat < x.toNat
        · simp [lexLt, hyx] at h2
        · have hx : x = y := char_toNat_inj (by omega)
          subst hx
          simp only [lexLt, if_neg hxy, if_neg hyx] at h1 h2
          rw [ih ys h1 h2]

theorem lexLt_trans : ∀ a b c : List Char,
    lexLt a b = true → lexLt b c = true → lexLt a c = true := by
  intro a
  induction a with
  | nil =>
    intro b c h1 h2
    cases c with
    | nil => rw [lexLt_nil] at h2; exact absurd h2 (by simp)
    | cons z zs => simp [lexLt]
  | cons x xs ih =>
    intro b c h1 h2
    cases b with
    | nil => simp [lexLt] at h1
    | cons y ys =>
      cases c with
      | nil => simp [lexLt] at h2
      | cons z zs =>
        by_cases hxy : x.toNat < y.toNat
        · by_cases hyz : y.toNat < z.toNat
          · have : x.toNat < z.toNat := by omega
            simp [lexLt, this]
          · by_cases hzy : z.toNat < y.toNat
            · simp [lexLt, hyz, hzy] at h2
            · have : x.toNat < z.toNat := by omega
              simp [lexLt, this]
        · by_cases hyx : y.toNat < x.toNat
          · simp [lexLt, hxy, hyx] at h1
          · by_cases hyz : y.toNat < z.toNat
            · have : x.toNat < z.toNat := by omega
              simp [lexLt, this]
            · by_cases hzy : z.toNat < y.toNat
              · simp [lexLt, hyz, hzy] at h2
              · have hxz : ¬ x.toNat < z.toNat := by omega
                have hzx : ¬ z.toNat < x.toNat := by omega
                simp only [lexLt, if_neg hxy, if_neg hyx] at h1
                simp only [lexLt, if_neg hyz, if_neg hzy] at h2
                simp only [lexLt, if_neg hxz, if_neg hzx]
                exact ih ys zs h1 h2

theorem lexLe_iff : ∀ a b : List Char, lexLe a b = true ↔ (lexLt a b = true ∨ a = b) := by
  intro a
  induction a with
  | nil =>
    intro b
    cases b with
    | nil => simp [lexLe, lexLt]
    | cons y ys => simp [lexLe, lexLt]
  | cons x xs ih =>
    intro b
    cases b with
    | nil => simp [lexLe, lexLt_nil]
    | cons y ys =>
      by_cases hxy : x.toNat < y.toNat
      · simp [lexLe, lexLt, hxy]
      · by_cases hyx : y.toNat < x.toNat
        · have hne : ¬ (x :: xs) = (y :: ys) := by
            intro h
            cases h
            omega
          simp [lexLe, lexLt, hxy, hyx, hne]
        · have hx : x = y := char_toNat_inj (by omega)
          subst hx
          simp only [lexLe, lexLt, if_neg hxy, if_neg hyx]
          rw [ih ys]
          constructor
          · rintro (h | h)
            · exact Or.inl h
            · exact Or.inr (by rw [h])
          · rintro (h | h)
            · exact Or.inl h
            · exact Or.inr (by cases h; rfl)

theorem lexLe_total (a b : List Char) : lexLe a b = true ∨ lexLe b a = true := by
  by_cases h1 : lexLt a b = true
  · exact Or.inl ((lexLe_iff a b).mpr (Or.inl h1))
  · by_cases h2 : lexLt b a = true
    · exact Or.inr ((lexLe_iff b a).mpr (Or.inl h2))
    · exact Or.inl ((lexLe_iff a b).mpr (Or.inr
        (lexLt_connected a b (by simpa using h1) (by simpa using h2))))

theorem lexLe_trans {a b c : List Char} (h1 : lexLe a b = true) (h2 : lexLe b c = true) :
    lexLe a c = true := by
  rcases (lexLe_iff a b).mp h1 with h1' | h1'
  · rcases (lexLe_iff b c).mp h2 with h2' | h2'
    · exact (lexLe_iff a c).mpr (Or.inl (lexLt_trans a b c h1' h2'))
    · subst h2'
      exact (lexLe_iff a b).mpr (Or.inl h1')
  · subst h1'
    exact h2

theorem lexLe_antisymm {a b : List Char} (h1 : lexLe a b = true) (h2 : lexLe b a = true) :
    a = b := by
  rcases (lexLe_iff a b).mp h1 with h1' | h1'
  · rcases (lexLe_iff b a).mp h2 with h2' | h2'
    · have := lexLt_asymm a b h1'
      rw [this] at h2'
      exact absurd h2' (by simp)
    · exact h2'.symm
  · exact h1'

/-! ## The tuple order used by `sorted(params.items())` is a total preorder -/

instance : IsTotal (String × String) pairLeR := by
  constructor
  intro p q
  unfold pairLeR pairLeB
  by_cases h1 : lexLt p.1.data q.1.data = true
  · left; simp [h1]
  · by_cases h2 : lexLt q.1.data p.1.data = true
    · right; simp [h2]
    · rcases lexLe_total p.2.data q.2.data with h | h
      · left
        simp only [Bool.not_eq_true] at h1 h2
        simp [h1, h2, h]
      · right
        simp only [Bool.not_eq_true] at h1 h2
        simp [h1, h2, h]

instance : IsTrans (String × String) pairLeR := by
  constructor
  intro p q r hpq hqr
  unfold pairLeR pairLeB at hpq hqr ⊢
  by_cases h1 : lexLt p.1.data q.1.data = true
  · by_cases h2 : lexLt q.1.data r.1.data = true
    · simp [lexLt_trans _ _ _ h1 h2]
    · by_cases h3 : lexLt r.1.data q.1.data = true
      · simp [h2, h3] at hqr
      · have hqr1 : q.1.data = r.1.data :=
          lexLt_connected _ _ (by simpa using h2) (by simpa using h3)
        rw [← hqr1]
        simp [h1]
  · by_cases h1' : lexLt q.1.data p.1.data = true
    · simp [h1, h1'] at hpq
    · have hpq1 : p.1.data = q.1.data :=
        lexLt_connected _ _ (by simpa using h1) (by simpa using h1')
      by_cases h2 : lexLt q.1.data r.1.data = true
      · rw [hpq1]
        simp [h2]
      · by_cases h3 : lexLt r.1.data q.1.data = true
        · simp [h2, h3] at hqr
        · have hqr1 : q.1.data = r.1.data :=
            lexLt_connected _ _ (by simpa using h2) (by simpa using h3)
          have hpr : ¬ lexLt p.1.data r.1.data = true := by
            rw [hpq1, hqr1]
            simp [lexLt_irrefl]
          have hrp : ¬ lexLt r.1.data p.1.data = true := by
            rw [hpq1, hqr1]
            simp [lexLt_irrefl]
          simp only [if_neg h1, if_neg h1'] at hpq
          simp only [if_neg h2, if_neg h3] at hqr
          simp only [if_neg hpr, if_neg hrp]
          exact lexLe_trans hpq hqr

instance : IsAntisymm (String × String) pairLeR := by
  constructor
  intro p q hpq hqp
  unfold pairLeR pairLeB at hpq hqp
  by_cases h1 : lexLt p.1.data q.1.data = true
  · have := lexLt_asymm _ _ h1
    simp [h1, this] at hqp
  · by_cases h2 : lexLt q.1.data p.1.data = true
    · simp [h1, h2] at hpq
    · have hkey : p.1.data = q.1.data :=
        lexLt_connected _ _ (by simpa using h1) (by simpa using h2)
      simp only [if_neg h1, if_neg h2] at hpq hqp
      have hval : p.2.data = q.2.data := lexLe_antisymm hpq hqp
      have e1 : p.1 = q.1 := str_ext hkey
      have e2 : p.2 = q.2 := str_ext hval
      exact Prod.ext e1 e2

/-! ## Shape of the MD5 hex digest -/

theorem hexDigit_mem (n : Nat) : hexDigit n ∈ hexDigits := by
  unfold hexDigit
  rw [List.getD_eq_getElem?_getD]
  rcases h : hexDigits[n]? with _ | x
  · simp
    decide
  · simp
    obtain ⟨hlt, he⟩ := List.getElem?_eq_some.mp h
    exact he ▸ List.getElem_mem hlt

theorem md5hex_length (m : List Nat) : (md5hex m).length = 32 := rfl

theorem md5hex_chars (m : List Nat) : ∀ c ∈ (md5hex m).data, c ∈ hexDigits := by
  intro c hc
  have hc2 : c ∈ (wordLEBytes (md5Words m).1 ++ wordLEBytes (md5Words m).2.1
      ++ wordLEBytes (md5Words m).2.2.1 ++ wordLEBytes (md5Words m).2.2.2).flatMap byteHex := hc
  rw [List.mem_flatMap] at hc2
  obtain ⟨b, _, hb⟩ := hc2
  have hb2 : c ∈ [hexDigit (b / 16), hexDigit (b % 16)] := hb
  simp only [List.mem_cons, List.not_mem_nil, or_false] at hb2
  rcases hb2 with h | h <;> (subst h; exact hexDigit_mem _)

/-- The sorted order of the seven fixed parameter keys. -/
theorem sortParams_base (b vc vw : String) :
    sortParams [("bvid", b), ("cid", vc), ("qn", "80"), ("fnver", "0"),
      ("fnval", "4048"), ("fourk", "1"), ("wts", vw)] =
    [("bvid", b), ("cid", vc), ("fnval", "4048"), ("fnver", "0"),
      ("fourk", "1"), ("qn", "80"), ("wts", vw)] := rfl

/-- Serialization of the sorted base parameters, written as one
concatenation. -/
theorem serialize_base (b vc vw : String) :
    serialize [("bvid", b), ("cid", vc), ("fnval", "4048"), ("fnver", "0"),
      ("fourk", "1"), ("qn", "80"), ("wts", vw)] =
    "bvid=" ++ b ++ "&cid=" ++ vc ++ "&fnval=4048&fnver=0&fourk=1&qn=80&wts=" ++ vw := by
  apply str_ext
  simp only [serialize, List.map_cons, List.map_nil, joinAmp, String.data_append,
    List.append_assoc]
  rfl

/-- C1: for every base parameter mapping (bvid, cid, qn=80, fnver=0,
fnval=4048, fourk=1, wts) and every key pair, `generate_wbi_sign` returns
the 32-character lowercase-hex MD5 digest of the UTF-8 bytes of the
parameters serialized in ascending key order as `k=v` pairs joined by `&`
(no escaping) followed directly by `img_key ++ sub_key`; in particular at
bvid=BV1xx411c7XX, cid=12345, wts=1700000000 it is the MD5 hex digest of
`bvid=BV1xx411c7XX&cid=12345&fnval=4048&fnver=0&fourk=1&qn=80&wts=1700000000`
followed by img_key then sub_key. -/
theorem c1_sign_is_md5_of_sorted_query (bvid : String) (cid wts : Int)
    (img_key sub_key : String) :
    generate_wbi_sign (baseParams bvid cid wts) img_key sub_key =
      md5hex (utf8Encode ("bvid=" ++ bvid ++ "&cid=" ++ toString cid ++
        "&fnval=4048&fnver=0&fourk=1&qn=80&wts=" ++ toString wts ++ img_key ++ sub_key)) ∧
    (generate_wbi_sign (baseParams bvid cid wts) img_key sub_key).length = 32 ∧
    generate_wbi_sign (baseParams "BV1xx411c7XX" 12345 1700000000) img_key sub_key =
      md5hex (utf8Encode
        ("bvid=BV1xx411c7XX&cid=12345&fnval=4048&fnver=0&fourk=1&qn=80&wts=1700000000"
          ++ img_key ++ sub_key)) := by
  refine ⟨?_, md5hex_length _, ?_⟩
  · unfold generate_wbi_sign sign_str mix_key baseParams
    rw [sortParams_base, serialize_base]
    apply congrArg
    apply congrArg
    apply str_ext
    simp only [String.data_append, List.append_assoc]
  · unfold generate_wbi_sign sign_str mix_key baseParams
    rw [sortParams_base, serialize_base]
    apply congrArg
    apply congrArg
    apply str_ext
    simp only [String.data_append, List.append_assoc]
    rfl

/-- C2: two parameter mappings with the same key-value pairs in different
insertion orders sign identically, because `generate_wbi_sign` re-sorts by
key before serializing and hashing. -/
theorem c2_sign_insertion_order_irrelevant (l1 l2 : List (String × String))
    (img_key sub_key : String) (hperm : l1.Perm l2)
    (hnodup : (l1.map Prod.fst).Nodup) :
    generate_wbi_sign l1 img_key sub_key = generate_wbi_sign l2 img_key sub_key := by
  have hs : sortParams l1 = sortParams l2 := by
    unfold sortParams
    exact List.eq_of_perm_of_sorted
      ((List.perm_insertionSort pairLeR l1).trans
        (hperm.trans (List.perm_insertionSort pairLeR l2).symm))
      (List.sorted_insertionSort pairLeR l1)
      (List.sorted_insertionSort pairLeR l2)
  unfold generate_wbi_sign sign_str
  rw [hs]

theorem c2_sign_insertion_order_irrelevant_witness :
    ([("cid", "1"), ("bvid", "b")] : List (String × String)).Perm
      [("bvid", "b"), ("cid", "1")] ∧
    (([("cid", "1"), ("bvid", "b")] : List (String × String)).map Prod.fst).Nodup ∧
    generate_wbi_sign [("cid", "1"), ("bvid", "b")] "ik" "sk" =
      generate_wbi_sign [("bvid", "b"), ("cid", "1")] "ik" "sk" :=
  ⟨by decide, by decide,
    c2_sign_insertion_order_irrelevant _ _ "ik" "sk" (by decide) (by decide)⟩

/-- C3: the signer is total and always returns a syntactically valid
signature: a 32-character string of lowercase hexadecimal digits, for any
parameter mapping and arbitrary (even empty) keys. -/
theorem c3_sign_total_valid_hex (params : List (String × String))
    (img_key sub_key : String) :
    (generate_wbi_sign params img_key sub_key).length = 32 ∧
    ∀ c ∈ (generate_wbi_sign params img_key sub_key).data, c ∈ hexDigits := by
  unfold generate_wbi_sign
  exact ⟨md5hex_length _, md5hex_chars _⟩

/-- C4: the signed parameter set contains exactly the keys bvid, cid, qn,
fnver, fnval, fourk, wts, w_rid with the fixed values, bvid/cid/wts as
given (wts being the clock sample passed in), and w_rid the signature of
the other seven; it is the base mapping unchanged with w_rid appended. -/
theorem c4_signed_params_exact (bvid : String) (cid wts : Int)
    (img_key sub_key : String) :
    (signedParams bvid cid wts img_key sub_key).map Prod.fst =
      ["bvid", "cid", "qn", "fnver", "fnval", "fourk", "wts", "w_rid"] ∧
    signedParams bvid cid wts img_key sub_key =
      baseParams bvid cid wts ++
        [("w_rid", generate_wbi_sign (baseParams bvid cid wts) img_key sub_key)] ∧
    List.lookup "bvid" (signedParams bvid cid wts img_key sub_key) = some bvid ∧
    List.lookup "cid" (signedParams bvid cid wts img_key sub_key) = some (toString cid) ∧
    List.lookup "qn" (signedParams bvid cid wts img_key sub_key) = some "80" ∧
    List.lookup "fnver" (signedParams bvid cid wts img_key sub_key) = some "0" ∧
    List.lookup "fnval" (signedParams bvid cid wts img_key sub_key) = some "4048" ∧
    List.lookup "fourk" (signedParams bvid cid wts img_key sub_key) = some "1" ∧
    List.lookup "wts" (signedParams bvid cid wts img_key sub_key) = some (toString wts) ∧
    List.lookup "w_rid" (signedParams bvid cid wts img_key sub_key) =
      some (generate_wbi_sign (baseParams bvid cid wts) img_key sub_key) :=
  ⟨rfl, rfl, rfl, rfl, rfl, rfl, rfl, rfl, rfl, rfl⟩

/-- C5: two runs of the signing computation with equal bvid, cid, wts,
img_key and sub_key produce equal signatures — the function depends on
nothing else. -/
theorem c5_sign_deterministic (bvid1 bvid2 : String) (cid1 cid2 wts1 wts2 : Int)
    (img1 img2 sub1 sub2 : String) (hb : bvid1 = bvid2) (hc : cid1 = cid2)
    (hw : wts1 = wts2) (hi : img1 = img2) (hs : sub1 = sub2) :
    generate_wbi_sign (baseParams bvid1 cid1 wts1) img1 sub1 =
      generate_wbi_sign (baseParams bvid2 cid2 wts2) img2 sub2 := by
  subst hb; subst hc; subst hw; subst hi; subst hs; rfl

theorem c5_sign_deterministic_witness :
    ("BV1" : String) = "BV1" ∧ (7 : Int) = 7 ∧
    generate_wbi_sign (baseParams "BV1" 7 9) "ik" "sk" =
      generate_wbi_sign (baseParams "BV1" 7 9) "ik" "sk" :=
  ⟨rfl, rfl, c5_sign_deterministic "BV1" "BV1" 7 7 9 9 "ik" "ik" "sk" "sk" rfl rfl rfl rfl rfl⟩

/-- C9: the signer never modifies the caller's params dict: in the
heap-explicit embedding every pre-existing object is unchanged (the sorted
copy is a fresh allocation), the caller's dict at `addr` in particular,
and the returned value is the pure signature of that dict — `w_rid` is not
added inside the signer. -/
theorem c9_sign_no_mutation (heap : List (List (String × String))) (addr : Nat)
    (img_key sub_key : String) (ha : addr < heap.length) :
    (generate_wbi_sign_heap heap addr img_key sub_key).1.take heap.length = heap ∧
    (generate_wbi_sign_heap heap addr img_key sub_key).1.getD addr [] = heap.getD addr [] ∧
    (generate_wbi_sign_heap heap addr img_key sub_key).2 =
      generate_wbi_sign (heap.getD addr []) img_key sub_key := by
  refine ⟨List.take_left _ _, ?_, rfl⟩
  exact List.getD_append _ _ _ _ ha

theorem c9_sign_no_mutation_witness :
    (0 : Nat) < ([[("bvid", "b")]] : List (List (String × String))).length ∧
    (generate_wbi_sign_heap [[("bvid", "b")]] 0 "ik" "sk").1.take 1 = [[("bvid", "b")]] ∧
    (generate_wbi_sign_heap [[("bvid", "b")]] 0 "ik" "sk").1.getD 0 [] = [("bvid", "b")] :=
  ⟨by decide, (c9_sign_no_mutation [[("bvid", "b")]] 0 "ik" "sk" (by decide)).1,
    (c9_sign_no_mutation [[("bvid", "b")]] 0 "ik" "sk" (by decide)).2.1⟩

/-! ## Python `str.split` on one character -/

theorem splitCh_cons_pos (c : Char) (xs : List Char) :
    splitCh c (c :: xs) = [] :: splitCh c xs := by
  simp [splitCh]

theorem splitCh_cons_neg {x c : Char} (hx : ¬ x = c) (xs : List Char) :
    splitCh c (x :: xs) = (x :: (splitCh c xs).headD []) :: (splitCh c xs).tail := by
  simp [splitCh, hx]

theorem splitCh_ne_nil (c : Char) (l : List Char) : splitCh c l ≠ [] := by
  cases l with
  | nil => simp [splitCh]
  | cons x xs =>
    by_cases hx : x = c
    · subst hx; rw [splitCh_cons_pos]; simp
    · rw [splitCh_cons_neg hx]; simp

theorem splitCh_shape (c : Char) (l : List Char) : ∃ y ys, splitCh c l = y :: ys := by
  cases h : splitCh c l with
  | nil => exact absurd h (splitCh_ne_nil c l)
  | cons y ys => exact ⟨y, ys, rfl⟩

theorem splitCh_headD (c : Char) : ∀ l : List Char,
    (splitCh c l).headD [] = l.takeWhile (fun x => x != c) := by
  intro l
  induction l with
  | nil => rfl
  | cons x xs ih =>
    by_cases hx : x = c
    · subst hx
      rw [splitCh_cons_pos]
      simp [List.takeWhile_cons]
    · rw [splitCh_cons_neg hx]
      simp only [List.headD_cons]
      rw [ih]
      have hx2 : (x != c) = true := by simp [hx]
      simp [List.takeWhile_cons, hx2]

theorem splitCh_not_mem (c : Char) : ∀ l : List Char, c ∉ l → splitCh c l = [l] := by
  intro l
  induction l with
  | nil => intro _; rfl
  | cons x xs ih =>
    intro hmem
    have hx : ¬ x = c := fun h => hmem (by rw [h]; exact List.mem_cons_self _ _)
    have hxs : c ∉ xs := fun h => hmem (List.mem_cons_of_mem _ h)
    rw [splitCh_cons_neg hx, ih hxs]
    rfl

theorem splitCh_length2 (c : Char) : ∀ l : List Char, c ∈ l → 2 ≤ (splitCh c l).length := by
  intro l
  induction l with
  | nil => intro h; cases h
  | cons x xs ih =>
    intro hmem
    by_cases hx : x = c
    · subst hx
      rw [splitCh_cons_pos]
      have hpos : 0 < (splitCh x xs).length := List.length_pos.mpr (splitCh_ne_nil x xs)
      simp only [List.length_cons]
      omega
    · have hxs : c ∈ xs := by
        cases hmem with
        | head => exact absurd rfl hx
        | tail _ h => exact h
      have h2 := ih hxs
      rw [splitCh_cons_neg hx]
      obtain ⟨y, ys, hr⟩ := splitCh_shape c xs
      rw [hr] at h2 ⊢
      simp only [List.length_cons, List.tail_cons] at h2 ⊢
      omega

theorem splitCh_getLastD (c : Char) : ∀ pre suf : List Char, c ∉ suf →
    (splitCh c (pre ++ c :: suf)).getLastD [] = suf := by
  intro pre
  induction pre with
  | nil =>
    intro suf hs
    rw [List.nil_append, splitCh_cons_pos, List.getLastD_cons,
      splitCh_not_mem c suf hs]
    rfl
  | cons x pre ih =>
    intro suf hs
    rw [List.cons_append]
    by_cases hx : x = c
    · subst hx
      rw [splitCh_cons_pos, List.getLastD_cons]
      exact ih suf hs
    · rw [splitCh_cons_neg hx]
      have hmem : c ∈ pre ++ c :: suf :=
        List.mem_append_right _ (List.mem_cons_self _ _)
      have hlen := splitCh_length2 c _ hmem
      have h2 := ih suf hs
      obtain ⟨y, ys, hr⟩ := splitCh_shape c (pre ++ c :: suf)
      rw [hr] at hlen h2 ⊢
      cases ys with
      | nil => simp at hlen
      | cons b t =>
        simp only [List.headD_cons, List.tail_cons]
        rw [List.getLastD_cons, List.getLastD_cons]
        rw [List.getLastD_cons, List.getLastD_cons] at h2
        exact h2

/-- C6: the extracted signing key is the filename stem of the URL — the
substring after the last `/`, truncated at the first `.` after it; holds
for every URL containing at least one `/` (decomposed at its last slash,
so the suffix contains no further slash). -/
theorem c6_stem_is_filename_stem (url : String) (pre suf : List Char)
    (hurl : url.data = pre ++ '/' :: suf) (hs : '/' ∉ suf) :
    stem url = String.mk (suf.takeWhile (fun x => x != '.')) := by
  unfold stem
  rw [hurl, splitCh_getLastD '/' pre suf hs, splitCh_headD]

theorem c6_stem_is_filename_stem_witness :
    ("https://x.y/abc123.png" : String).data =
      "https://x.y".data ++ '/' :: "abc123.png".data ∧
    '/' ∉ "abc123.png".data ∧
    stem "https://x.y/abc123.png" =
      String.mk ("abc123.png".data.takeWhile (fun x => x != '.')) :=
  ⟨rfl, by decide,
    c6_stem_is_filename_stem "https://x.y/abc123.png" "https://x.y".data
      "abc123.png".data rfl (by decide)⟩

/-! ## Exception propagation in the response handling -/

theorem except_bind_ok {α β γ : Type} (a : α) (f : α → Except γ β) :
    (Except.ok a >>= f) = f a := rfl

theorem except_bind_error {α β γ : Type} (e : γ) (f : α → Except γ β) :
    ((Except.error e : Except γ α) >>= f) = Except.error e := rfl

/-- C7: an HTTP 200 navigation response whose JSON lacks `wbi_img` (or the
enclosing `data`) makes the subscript chain raise, so `get_wbi_keys`
surfaces a hard failure (the uncaught `KeyError`, the spec's
MalformedResponse) and the caller never proceeds to sign with empty or
defaulted keys: the whole parameter assembly is the same error, never a
success with substituted defaults. -/
theorem c7_missing_wbi_img_hard_failure (body : Json) (e : PyErr) (bvid : String)
    (cid wts : Int)
    (h : (body.getItem "data" >>= fun d => Json.getItem d "wbi_img") = Except.error e) :
    get_wbi_keys 200 body = Except.error e ∧
    get_audio_url_params 200 body bvid cid wts = Except.error e := by
  have hkeys : get_wbi_keys 200 body = Except.error e := by
    unfold get_wbi_keys
    rw [if_pos rfl]
    cases hd : body.getItem "data" with
    | error e1 =>
      rw [hd] at h
      have h' : (Except.error e1 : Except PyErr Json) = Except.error e := h
      injection h' with he
      subst he
      rfl
    | ok d =>
      rw [hd] at h
      have h' : Json.getItem d "wbi_img" = Except.error e := h
      simp only [except_bind_ok]
      rw [h']
      rfl
  refine ⟨hkeys, ?_⟩
  unfold get_audio_url_params
  rw [hkeys]
  rfl

theorem c7_missing_wbi_img_hard_failure_witness :
    ((Json.obj [("data", Json.obj [("code", Json.num 0)])]).getItem "data" >>=
        fun d => Json.getItem d "wbi_img") = Except.error (PyErr.keyError "wbi_img") ∧
    get_wbi_keys 200 (Json.obj [("data", Json.obj [("code", Json.num 0)])]) =
      Except.error (PyErr.keyError "wbi_img") ∧
    get_audio_url_params 200 (Json.obj [("data", Json.obj [("code", Json.num 0)])])
        "BV1xx411c7XX" 12345 1700000000 = Except.error (PyErr.keyError "wbi_img") :=
  ⟨rfl,
    (c7_missing_wbi_img_hard_failure (Json.obj [("data", Json.obj [("code", Json.num 0)])])
      (PyErr.keyError "wbi_img") "BV1xx411c7XX" 12345 1700000000 rfl).1,
    (c7_missing_wbi_img_hard_failure (Json.obj [("data", Json.obj [("code", Json.num 0)])])
      (PyErr.keyError "wbi_img") "BV1xx411c7XX" 12345 1700000000 rfl).2⟩

/-! ## The regex search `BV[\w]+` -/

theorem matchAt_BV (c : Char) (r : List Char) (hw : isWordChar c = true) :
    matchAt ('B' :: 'V' :: c :: r) = some ('B' :: 'V' :: c :: r.takeWhile isWordChar) := by
  simp [matchAt, List.takeWhile_cons, hw]

theorem matchAt_eq_some {l m : List Char} (h : matchAt l = some m) :
    ∃ c r, l = 'B' :: 'V' :: c :: r ∧ isWordChar c = true := by
  match l with
  | [] => simp [matchAt] at h
  | [x] => simp [matchAt] at h
  | x :: y :: rest =>
    simp only [matchAt] at h
    by_cases hxy : x = 'B' ∧ y = 'V'
    · rw [if_pos hxy] at h
      obtain ⟨hx, hy⟩ := hxy
      subst hx; subst hy
      cases hrest : rest with
      | nil => simp [hrest] at h
      | cons c r =>
        subst hrest
        by_cases hw : isWordChar c = true
        · exact ⟨c, r, rfl, hw⟩
        · have hw' : isWordChar c = false := by
            cases hc : isWordChar c
            · rfl
            · exact absurd hc hw
          simp [List.takeWhile_cons, hw'] at h
    · rw [if_neg hxy] at h
      cases h

theorem searchBV_cons (x : Char) (xs : List Char) :
    searchBV (x :: xs) = match matchAt (x :: xs) with
      | some m => some m
      | none => searchBV xs := rfl

theorem searchBV_none_iff : ∀ l : List Char,
    searchBV l = none ↔ ¬ ∃ p c r, l = p ++ 'B' :: 'V' :: c :: r ∧ isWordChar c = true := by
  intro l
  induction l with
  | nil =>
    constructor
    · rintro _ ⟨p, c, r, hl, _⟩
      cases p <;> simp at hl
    · intro _
      rfl
  | cons x xs ih =>
    rw [searchBV_cons]
    cases hm : matchAt (x :: xs) with
    | some m =>
      constructor
      · intro h
        cases h
      · intro h
        obtain ⟨c, r, hl, hw⟩ := matchAt_eq_some hm
        exact absurd ⟨[], c, r, hl, hw⟩ h
    | none =>
      rw [ih]
      constructor
      · rintro h ⟨p, c, r, hl, hw⟩
        cases p with
        | nil =>
          simp only [List.nil_append] at hl
          rw [hl, matchAt_BV c r hw] at hm
          cases hm
        | cons z p' =>
          apply h
          refine ⟨p', c, r, ?_, hw⟩
          have := congrArg List.tail hl
          simpa using this
      · intro h hex
        apply h
        obtain ⟨p, c, r, hl, hw⟩ := hex
        exact ⟨x :: p, c, r, by rw [hl]; rfl, hw⟩

theorem searchBV_earliest : ∀ (p : List Char) (c : Char) (r : List Char),
    isWordChar c = true →
    (∀ p' c' r', p ++ 'B' :: 'V' :: c :: r = p' ++ 'B' :: 'V' :: c' :: r' →
      isWordChar c' = true → p.length ≤ p'.length) →
    searchBV (p ++ 'B' :: 'V' :: c :: r) =
      some ('B' :: 'V' :: c :: r.takeWhile isWordChar) := by
  intro p
  induction p with
  | nil =>
    intro c r hw _
    rw [List.nil_append, searchBV_cons, matchAt_BV c r hw]
  | cons x p ih =>
    intro c r hw hmin
    rw [List.cons_append, searchBV_cons]
    cases hm : matchAt (x :: (p ++ 'B' :: 'V' :: c :: r)) with
    | some m =>
      obtain ⟨c', r', hl, hw'⟩ := matchAt_eq_some hm
      have := hmin [] c' r' (by rw [List.cons_append, List.nil_append]; exact hl) hw'
      simp at this
    | none =>
      apply ih c r hw
      intro p' c' r' he hw'
      have h2 := hmin (x :: p') c' r'
        (by rw [List.cons_append, List.cons_append, he]) hw'
      simpa using h2

/-- C10: `extract_bvid` returns the earliest maximal substring matching
`BV` followed by one or more word characters when one exists (the match at
the least start position, extended greedily), and `none` otherwise, where
word characters are exactly those of CPython's Unicode-aware `\w`
(`wordRanges`); they include the underscore even though a bvid is
described as `BV` plus alphanumerics. -/
theorem c10_extract_bvid_earliest_maximal (url : String) :
    (extract_bvid url = none ↔
      ¬ ∃ p c r, url.data = p ++ 'B' :: 'V' :: c :: r ∧ isWordChar c = true) ∧
    (∀ p c r, url.data = p ++ 'B' :: 'V' :: c :: r → isWordChar c = true →
      (∀ p' c' r', url.data = p' ++ 'B' :: 'V' :: c' :: r' → isWordChar c' = true →
        p.length ≤ p'.length) →
      extract_bvid url = some (String.mk ('B' :: 'V' :: c :: r.takeWhile isWordChar))) ∧
    isWordChar '_' = true := by
  refine ⟨?_, ?_, rfl⟩
  · unfold extract_bvid
    rw [← searchBV_none_iff url.data]
    cases searchBV url.data <;> simp
  · intro p c r h hw hmin
    unfold extract_bvid
    rw [h, searchBV_earliest p c r hw]
    · rfl
    · intro p' c' r' he hw'
      exact hmin p' c' r' (h.trans he) hw'

theorem c10_extract_bvid_earliest_maximal_witness :
    ("x BVé1_!BVzz" : String).data =
      "x ".data ++ 'B' :: 'V' :: 'é' :: "1_!BVzz".data ∧
    isWordChar 'é' = true ∧
    extract_bvid "x BVé1_!BVzz" =
      some (String.mk ('B' :: 'V' :: 'é' :: "1_!BVzz".data.takeWhile isWordChar)) :=
  ⟨rfl, by decide,
    (c10_extract_bvid_earliest_maximal "x BVé1_!BVzz").2.1 "x ".data 'é' "1_!BVzz".data
      rfl (by decide)
      (by
        intro p' c' r' he hw'
        match p', he with
        | [], he =>
          rw [List.nil_append] at he
          injection he with h1 h2
          exact absurd h1 (by decide)
        | [z], he =>
          injection he with h1 h2
          injection h2 with h3 h4
          exact absurd h3 (by decide)
        | z1 :: z2 :: t, he =>
          simp only [List.length_cons, List.length_nil]
          omega)⟩

/-! ## C8: key sensitivity -/

theorem add32_lt (a b : Nat) : add32 a b < M32 :=
  Nat.mod_lt _ (by decide)

theorem foldl_md5Chunk_lt : ∀ (cs : List (List Nat)) (st : Nat × Nat × Nat × Nat),
    st.1 < M32 → st.2.1 < M32 → st.2.2.1 < M32 → st.2.2.2 < M32 →
    (cs.foldl md5Chunk st).1 < M32 ∧ (cs.foldl md5Chunk st).2.1 < M32 ∧
    (cs.foldl md5Chunk st).2.2.1 < M32 ∧ (cs.foldl md5Chunk st).2.2.2 < M32 := by
  intro cs
  induction cs with
  | nil =>
    intro st h1 h2 h3 h4
    exact ⟨h1, h2, h3, h4⟩
  | cons chunk rest ih =>
    intro st _ _ _ _
    exact ih (md5Chunk st chunk) (add32_lt _ _) (add32_lt _ _) (add32_lt _ _) (add32_lt _ _)

theorem md5Words_lt (msg : List Nat) :
    (md5Words msg).1 < M32 ∧ (md5Words msg).2.1 < M32 ∧
    (md5Words msg).2.2.1 < M32 ∧ (md5Words msg).2.2.2 < M32 :=
  foldl_md5Chunk_lt _ md5Init (by decide) (by decide) (by decide) (by decide)

theorem digestNat_lt (w : Nat × Nat × Nat × Nat) (h1 : w.1 < M32) (h2 : w.2.1 < M32)
    (h3 : w.2.2.1 < M32) (h4 : w.2.2.2 < M32) : digestNat w < 2 ^ 128 := by
  simp only [digestNat]
  simp only [M32] at h1 h2 h3 h4 ⊢
  norm_num
  omega

theorem digestNat_inj {w v : Nat × Nat × Nat × Nat}
    (hw1 : w.1 < M32) (hw2 : w.2.1 < M32) (hw3 : w.2.2.1 < M32) (hw4 : w.2.2.2 < M32)
    (hv1 : v.1 < M32) (hv2 : v.2.1 < M32) (hv3 : v.2.2.1 < M32) (hv4 : v.2.2.2 < M32)
    (heq : digestNat w = digestNat v) : w = v := by
  simp only [digestNat] at heq
  simp only [M32] at hw1 hw2 hw3 hw4 hv1 hv2 hv3 hv4 heq
  norm_num at heq
  refine Prod.ext ?_ (Prod.ext ?_ (Prod.ext ?_ ?_)) <;> omega

theorem md5hex_congr {m1 m2 : List Nat} (h : md5Words m1 = md5Words m2) :
    md5hex m1 = md5hex m2 := by
  unfold md5hex
  rw [h]

theorem imgOfNat_inj {m n : Nat} (h : m ≠ n) : imgOfNat m ≠ imgOfNat n := by
  intro he
  apply h
  have hd : (imgOfNat m).data = (imgOfNat n).data := by rw [he]
  simpa [imgOfNat] using congrArg List.length hd

/-- C8 counterexample: the claim "replacing `img_key` with a different
string always changes `w_rid`" is false: `generate_wbi_sign` maps
infinitely many `img_key`s into the finite set of 128-bit digests, so by
pigeonhole two distinct keys collide (no concrete pair is exhibited — MD5
collisions cannot feasibly be computed here — but the universal claim is
refuted). -/
theorem c8_counterexample_sign_not_key_injective :
    ¬ (∀ (params : List (String × String)) (img1 img2 sub_key : String), img1 ≠ img2 →
        generate_wbi_sign params img1 sub_key ≠ generate_wbi_sign params img2 sub_key) := by
  intro hcl
  have hb : ∀ n : Nat, digestNat (md5Words (c8Msg n)) < 2 ^ 128 := by
    intro n
    obtain ⟨h1, h2, h3, h4⟩ := md5Words_lt (c8Msg n)
    exact digestNat_lt _ h1 h2 h3 h4
  obtain ⟨m, n, hmn, heq⟩ := Finite.exists_ne_map_eq_of_infinite
    (fun k : Nat => (⟨digestNat (md5Words (c8Msg k)), hb k⟩ : Fin (2 ^ 128)))
  have heq2 : digestNat (md5Words (c8Msg m)) = digestNat (md5Words (c8Msg n)) :=
    congrArg Fin.val heq
  obtain ⟨hm1, hm2, hm3, hm4⟩ := md5Words_lt (c8Msg m)
  obtain ⟨hn1, hn2, hn3, hn4⟩ := md5Words_lt (c8Msg n)
  have heq3 : md5Words (c8Msg m) = md5Words (c8Msg n) :=
    digestNat_inj hm1 hm2 hm3 hm4 hn1 hn2 hn3 hn4 heq2
  exact hcl (baseParams "BV1xx411c7XX" 12345 1700000000) (imgOfNat m) (imgOfNat n) ""
    (imgOfNat_inj hmn) (md5hex_congr heq3)

/-- C8 amended: replacing `img_key` with a different string (holding
`sub_key` fixed) always changes the string that is hashed — the MD5 input
`sign_str` — and likewise for `sub_key`; hence `w_rid` changes except when
the two distinct inputs happen to be an MD5 collision (such pairs exist by
the counterexample, though none is feasibly exhibitable).  The mix key is
`img_key ++ sub_key` in that order with no separator. -/
theorem c8_amended_key_changes_hash_input (params : List (String × String))
    (img1 img2 imgk sub1 sub2 subk : String) :
    (img1 ≠ img2 → sign_str params img1 subk ≠ sign_str params img2 subk) ∧
    (sub1 ≠ sub2 → sign_str params imgk sub1 ≠ sign_str params imgk sub2) ∧
    mix_key imgk subk = imgk ++ subk := by
  refine ⟨?_, ?_, rfl⟩
  · intro hne he
    apply hne
    unfold sign_str mix_key at he
    have hd := congrArg String.data he
    simp only [String.data_append] at hd
    exact str_ext (List.append_cancel_right (List.append_cancel_left hd))
  · intro hne he
    apply hne
    unfold sign_str mix_key at he
    have hd := congrArg String.data he
    simp only [String.data_append] at hd
    exact str_ext (List.append_cancel_left (List.append_cancel_left hd))

theorem c8_amended_key_changes_hash_input_witness :
    ("ik1" : String) ≠ "ik2" ∧ ("sk1" : String) ≠ "sk2" ∧
    sign_str (baseParams "BV1" 1 2) "ik1" "sk" ≠
      sign_str (baseParams "BV1" 1 2) "ik2" "sk" ∧
    sign_str (baseParams "BV1" 1 2) "ik" "sk1" ≠
      sign_str (baseParams "BV1" 1 2) "ik" "sk2" :=
  ⟨by decide, by decide,
    (c8_amended_key_changes_hash_input (baseParams "BV1" 1 2)
      "ik1" "ik2" "ik" "sk1" "sk2" "sk").1 (by decide),
    (c8_amended_key_changes_hash_input (baseParams "BV1" 1 2)
      "ik1" "ik2" "ik" "sk1" "sk2" "sk").2.1 (by decide)⟩
